import Mathlib

/-!
Verification of the `vgpu` GPU configuration and device-selection layer.

The definitions below are a shallow embedding of the Go sources:
* `FindString`, `GPU.AddInstanceExt`, `GPU.AddDeviceExt`, `GPU.AddValidationLayer`
  from `vgpu.go` (extension/layer list management),
* `GPU.SelectGPU` and its loops from `vgpu.go` (physical-device selection,
  including the `*_DEVICE_SELECT` environment override),
* `GPU.Config` from `vgpu.go` (instance creation, option merging with the
  process-wide `DefaultOpts` global, error/panic paths),
* the arithmetic of `examples/compute1/compute.go` (`IntMultiple` rounding).

Go slices of strings become `List String`; pointers to the shared options
object become an explicit reference tag (`OptsRef`) plus a store holding the
object's contents, so that aliasing of the `DefaultOpts` global is visible.
Results of external Vulkan calls are inputs (`VkWorld`); `log` output is not
modelled.  Functions whose Go source is not part of this repository snapshot
are modelled from the spec and marked as such in their doc comments.
-/

namespace VGpu

/-- `FindString` from `vgpu.go`: returns index of string if in list, else -1. -/
def FindStringAux (str : String) (strs : List String) (i : Nat) : Int :=
  match strs with
  | [] => -1
  | s :: rest => if str = s then Int.ofNat i else FindStringAux str rest (i + 1)

/-- `FindString(str, strs)`: index of `str` in `strs`, or `-1`. -/
def FindString (str : String) (strs : List String) : Int :=
  FindStringAux str strs 0

/-- Body of the loop in `GPU.AddInstanceExt` / `GPU.AddDeviceExt`:
append `ex` unless `FindString` finds it (the Boolean result of the Go
methods, which is constantly `true`, is dropped). -/
def addIfAbsent (exts : List String) (ex : String) : List String :=
  if FindString ex exts ≥ 0 then exts else exts ++ [ex]

/-- `GPU.AddInstanceExt(ext...)` acting on the `InstanceExts` field:
adds the given extension(s), only if not already set. -/
def AddInstanceExt (exts : List String) (ext : List String) : List String :=
  ext.foldl addIfAbsent exts

/-- `GPU.AddDeviceExt(ext...)` acting on the `DeviceExts` field:
adds the given extension(s), only if not already set. -/
def AddDeviceExt (exts : List String) (ext : List String) : List String :=
  ext.foldl addIfAbsent exts

/-- `GPU.AddValidationLayer(ext)` acting on the `ValidationLayers` field:
adds the given validation layer, only if not already set (the Boolean
result — `false` when already present — is dropped). -/
def AddValidationLayer (layers : List String) (ext : String) : List String :=
  if FindString ext layers ≥ 0 then layers else layers ++ [ext]

/-- `math32.IntMultiple(val, mod)` as called by `examples/compute1/compute.go`:
the integer multiple of `mod` closest to `val`, computed by the Go library as
`float32(int(Round(val/mod))) * mod` — rounding to the NEAREST multiple, half
away from zero (the padding-up variant is the separate `math32.IntMultipleGE`,
`Ceil(val/mod)*mod`, which the example does not call).  Embedded over `Nat`
as exact rational rounding, `floor((2*val + m) / (2*m)) * m`, which agrees
with the `float32` computation at the scales used here. -/
def IntMultiple (val m : Nat) : Nat :=
  ((2 * val + m) / (2 * m)) * m

/-- A physical device as observed through the Vulkan property queries made by
`GPU.SelectGPU` and `GPU.Config`:
`name` models `PhysicalDeviceProperties.DeviceName`, `discrete` models
`DeviceType == PhysicalDeviceTypeDiscreteGpu`, `heaps` the sizes of the
`MemoryHeaps`, and `maxComputeWorkGroupCount0` the first component of
`Limits.MaxComputeWorkGroupCount`. -/
structure PhysDevice where
  name : String
  deviceID : Nat
  discrete : Bool
  heaps : List Nat
  maxComputeWorkGroupCount0 : Nat
deriving DecidableEq, Repr

instance : Inhabited PhysDevice :=
  ⟨⟨"", 0, false, [], 0⟩⟩

/-- `CleanString` (helper outside this source snapshot): strips the NUL
padding of the fixed-size Vulkan device-name array; only its application in
`GetDeviceName` matters for the claims. -/
def CleanString (s : String) : String :=
  String.mk (s.toList.filter (fun c => c ≠ Char.ofNat 0))

/-- `GPU.GetDeviceName(properties, idx)` from `vgpu.go`:
`fmt.Sprintf("%s: id=%d idx=%d", nm, properties.DeviceID, idx)`. -/
def GetDeviceName (p : PhysDevice) (idx : Nat) : String :=
  CleanString p.name ++ ": id=" ++ toString p.deviceID ++ " idx=" ++ toString idx

/-- `needle` occurs at the head of `hay` (helper for `containsSub`). -/
def leadsWith : List Char → List Char → Bool
  | [], _ => true
  | _ :: _, [] => false
  | a :: as, b :: bs => a = b && leadsWith as bs

/-- `bytes.Contains(hay, needle)` on the device-name bytes, over `List Char`. -/
def containsSub (needle : List Char) : List Char → Bool
  | [] => needle.isEmpty
  | b :: bs => leadsWith needle (b :: bs) || containsSub needle bs

/-- Digit run to number (helper for `Atoi`). -/
def digitsVal (ds : List Char) : Nat :=
  ds.foldl (fun acc c => acc * 10 + (c.toNat - '0'.toNat)) 0

/-- `strconv.Atoi`: optional sign followed by a non-empty digit run, else an
error (`none`); overflow is not modelled (all inputs of interest are small). -/
def Atoi (s : String) : Option Int :=
  match s.toList with
  | [] => none
  | c :: rest =>
    let signed : Bool × List Char :=
      if c = '-' then (true, rest)
      else if c = '+' then (false, rest)
      else (false, c :: rest)
    if signed.2 = [] then none
    else if signed.2.all Char.isDigit then
      some (if signed.1 then -(digitsVal signed.2 : Int) else (digitsVal signed.2 : Int))
    else none

/-- The target-device override string: `MESA_VK_DEVICE_SELECT`, else
`VK_DEVICE_SELECT`; for compute GPUs a non-empty `VK_COMPUTE_DEVICE_SELECT`
takes precedence (`GPU.SelectGPU`, the `trgDevNm` computation).  `os.Getenv`
is modelled as a total function returning `""` for unset variables. -/
def pickTarget (compute : Bool) (env : String → String) : String :=
  let t0 :=
    if env "MESA_VK_DEVICE_SELECT" ≠ "" then env "MESA_VK_DEVICE_SELECT"
    else if env "VK_DEVICE_SELECT" ≠ "" then env "VK_DEVICE_SELECT"
    else ""
  if compute ∧ env "VK_COMPUTE_DEVICE_SELECT" ≠ "" then
    env "VK_COMPUTE_DEVICE_SELECT"
  else t0

/-- The index-override loop of `GPU.SelectGPU`: walk the devices with global
index `gi`, counting only discrete ones in `curIndex`; return the device at
which `curIndex` reaches `idx`, with its global index. -/
def findDiscreteLoop : List PhysDevice → Nat → Nat → Nat → Option (Nat × PhysDevice)
  | [], _, _, _ => none
  | d :: rest, idx, curIndex, gi =>
    if d.discrete then
      if curIndex = idx then some (gi, d)
      else findDiscreteLoop rest idx (curIndex + 1) (gi + 1)
    else findDiscreteLoop rest idx curIndex (gi + 1)

/-- The name-override loop of `GPU.SelectGPU`: first device whose name bytes
contain the target string. -/
def findNameLoop (t : String) : List PhysDevice → Nat → Option (Nat × PhysDevice)
  | [], _ => none
  | d :: rest, gi =>
    if containsSub t.toList d.name.toList then some (gi, d)
    else findNameLoop t rest (gi + 1)

/-- The running accumulator of the default-selection loop of `GPU.SelectGPU`
(`devNm`, `maxSz`, `maxIndex`). -/
structure BestAcc where
  devNm : String
  maxSz : Nat
  maxIndex : Nat
deriving DecidableEq, Repr

/-- The inner heap loop of the default selection: each heap strictly larger
than the best seen so far makes its device the current selection. -/
def heapFold (dn : String) (gi : Nat) : List Nat → BestAcc → BestAcc
  | [], acc => acc
  | sz :: rest, acc =>
    if sz > acc.maxSz then heapFold dn gi rest ⟨dn, sz, gi⟩
    else heapFold dn gi rest acc

/-- The default-selection loop of `GPU.SelectGPU`: scan all devices, and for
each discrete one scan its memory heaps. -/
def selectDefaultLoop : List PhysDevice → Nat → BestAcc → BestAcc
  | [], _, acc => acc
  | d :: rest, gi, acc =>
    if d.discrete then
      selectDefaultLoop rest (gi + 1) (heapFold (GetDeviceName d gi) gi d.heaps acc)
    else selectDefaultLoop rest (gi + 1) acc

/-- Result of `GPU.SelectGPU`: the chosen index together with the
`DeviceName` it stores into the `GPU` struct, or a `panic`. -/
inductive SelOutcome where
  | ok (index : Nat) (deviceName : String)
  | panicked (msg : String)
deriving DecidableEq, Repr

/-- The multi-device part of `GPU.SelectGPU` (everything after the
single-device early return). -/
def SelectGPUMulti (compute : Bool) (env : String → String)
    (gpus : List PhysDevice) : SelOutcome :=
  let trgDevNm := pickTarget compute env
  let byName : Option SelOutcome :=
    (findNameLoop trgDevNm gpus 0).map fun p => SelOutcome.ok p.1 (GetDeviceName p.2 p.1)
  let overridden : Option SelOutcome :=
    if trgDevNm = "" then none
    else
      match Atoi trgDevNm with
      | some idx =>
        if 0 ≤ idx ∧ idx < (gpus.length : Int) then
          match findDiscreteLoop gpus idx.toNat 0 0 with
          | some (gi, d) => some (SelOutcome.ok gi (GetDeviceName d gi))
          | none => some (SelOutcome.panicked
              ("vgpu: device specified by index in *_DEVICE_SELECT environment variable, index: "
                ++ toString idx ++ ", NOT FOUND"))
        else byName
      | none => byName
  match overridden with
  | some r => r
  | none =>
    let acc := selectDefaultLoop gpus 0 ⟨"", 0, 0⟩
    SelOutcome.ok acc.maxIndex acc.devNm

/-- `GPU.SelectGPU(gpus, gpuCount)` from `vgpu.go`: the `gpuCount == 1`
early return, then the environment override and the largest-discrete-heap
default (log output is not modelled). -/
def SelectGPU (compute : Bool) (env : String → String)
    (gpus : List PhysDevice) : SelOutcome :=
  if gpus.length = 1 then
    SelOutcome.ok 0 (GetDeviceName (gpus.headI) 0)
  else SelectGPUMulti compute env gpus

/-- Spec-side description: all `(global index, device)` pairs of the list,
starting the global index at `gi`. -/
def entriesFrom : List PhysDevice → Nat → List (Nat × PhysDevice)
  | [], _ => []
  | d :: rest, gi => (gi, d) :: entriesFrom rest (gi + 1)

/-- Spec-side description: the `(global index, device)` pairs of the discrete
devices, in order, starting the global index at `gi`. -/
def discEntriesFrom : List PhysDevice → Nat → List (Nat × PhysDevice)
  | [], _ => []
  | d :: rest, gi =>
    if d.discrete then (gi, d) :: discEntriesFrom rest (gi + 1)
    else discEntriesFrom rest (gi + 1)

/-- Spec-side description: the largest single memory heap of a device. -/
def deviceBestHeap (d : PhysDevice) : Nat :=
  d.heaps.foldr max 0

/-- Spec-side description: the largest single memory heap over all discrete
devices of the list. -/
def discreteMaxFrom : List PhysDevice → Nat
  | [] => 0
  | d :: rest =>
    if d.discrete then max (deviceBestHeap d) (discreteMaxFrom rest)
    else discreteMaxFrom rest

/-- Spec-side description: the first discrete device (with its global index,
starting at `gi`) whose largest heap equals `m`. -/
def firstMaxFrom : List PhysDevice → Nat → Nat → Option (Nat × PhysDevice)
  | [], _, _ => none
  | d :: rest, gi, m =>
    if d.discrete ∧ deviceBestHeap d = m then some (gi, d)
    else firstMaxFrom rest (gi + 1) m

/-- Modelled from the spec: the contents of a `GPUOpts` object (its Go
definition is outside this source snapshot); an association of option names
to on/off settings. -/
structure GPUOpts where
  settings : List (String × Bool)
deriving DecidableEq, Repr

/-- Set one option, replacing an existing entry of the same name. -/
def setOpt : List (String × Bool) → String → Bool → List (String × Bool)
  | [], k, v => [(k, v)]
  | (k', v') :: rest, k, v =>
    if k' = k then (k, v) :: rest else (k', v') :: setOpt rest k v

/-- Modelled from the spec: `GPUOpts.CopyFrom` (outside this snapshot) merges
the passed options into the receiver in place; per the `DefaultOpts` doc
comment, the passed-in options "take precedence over these options".
A `nil` source leaves the receiver unchanged. -/
def GPUOpts.CopyFrom (dst : GPUOpts) (src : Option GPUOpts) : GPUOpts :=
  match src with
  | none => dst
  | some s => ⟨s.settings.foldl (fun acc kv => setOpt acc kv.1 kv.2) dst.settings⟩

/-- The process-wide mutable globals of `vgpu.go`: the `Debug` flag and the
`DefaultOpts` pointer (`none` = nil; `some d` = a live object whose current
contents are `d`; mutating the pointed-to object replaces `d`). -/
structure Globals where
  debug : Bool
  defaultOpts : Option GPUOpts
deriving DecidableEq, Repr

/-- What the `gp.UserOpts` pointer refers to after `Config`: nil, the shared
`DefaultOpts` object, or the caller's own options object (whose contents are
frozen here, since no claim concerns caller-side mutation). -/
inductive OptsRef where
  | null
  | globalDefault
  | callerObj (contents : Option GPUOpts)
deriving DecidableEq, Repr

/-- The fields of the Go `GPU` struct that the claims observe. -/
structure GPURec where
  appName : String
  userOpts : OptsRef
  instanceExts : List String
  deviceExts : List String
  validationLayers : List String
  compute : Bool
  deviceName : String
  maxComputeWorkGroupCount1D : Nat
deriving DecidableEq, Repr

/-- A Vulkan call result: `Success` or an error code (`NewError(ret)` is
non-nil exactly on the latter, making `IfPanic` panic). -/
inductive VkResult where
  | success
  | errorCode (c : Int)
deriving DecidableEq, Repr

/-- The responses of the external Vulkan API calls made during `GPU.Config`,
treated as inputs of the embedding. -/
structure VkWorld where
  instanceExtsAvail : Except String (List String)
  validationLayersAvail : Except String (List String)
  createInstanceRet : VkResult
  enumerateRet : VkResult
  devices : List PhysDevice
  deviceExtsAvail : Except String (List String)
  checkGPUOpts : Bool
  createDebugCallbackRet : VkResult
  env : String → String

/-- How `GPU.Config` terminates: normally (`nil` error), with a returned
error, or by panicking (`IfPanic` / `panic` inside `SelectGPU`). -/
inductive ConfigOutcome where
  | ok
  | errorResult (msg : String)
  | panicked (msg : String)
deriving DecidableEq, Repr

/-- The observable result of `GPU.Config`: its outcome, the updated `GPU`
struct, the process-wide globals after the call, and the extension/layer
lists actually enabled on the created instance and device. -/
structure ConfigResult where
  outcome : ConfigOutcome
  gp : GPURec
  globals : Globals
  enabledInstanceExts : List String
  enabledLayers : List String
  enabledDeviceExts : List String
deriving DecidableEq, Repr

/-- `CheckExisting(actual, required)` (helper outside this snapshot): the
required names present among the actual ones, and the number missing. -/
def CheckExisting (actual required : List String) : List String × Nat :=
  (required.filter (fun r => actual.contains r),
   (required.filter (fun r => ¬ actual.contains r)).length)

/-- Where `gp.UserOpts` points after the opts-merging prologue of
`GPU.Config`: `gp.UserOpts = DefaultOpts`, then, when options were passed,
a nil `UserOpts` is replaced by the caller's pointer while a non-nil one is
merged into in place. -/
def configUserOpts (g : Globals) (opts : List (Option GPUOpts)) : OptsRef :=
  match g.defaultOpts, opts with
  | some _, _ => OptsRef.globalDefault
  | none, [] => OptsRef.null
  | none, o :: _ => OptsRef.callerObj o

/-- Effect of the same prologue on the globals: with a non-nil `DefaultOpts`
and passed options, `gp.UserOpts.CopyFrom(opts[0])` writes through the alias
into the shared object. -/
def configGlobals (g : Globals) (opts : List (Option GPUOpts)) : Globals :=
  match g.defaultOpts, opts with
  | some d, o :: _ => { g with defaultOpts := some (d.CopyFrom o) }
  | _, _ => g

/-- The `if Debug` block of `GPU.Config`: add the Khronos validation layer
and the debug-report instance extension. -/
def configDebugLayers (debug : Bool) (gp : GPURec) : GPURec :=
  if debug then
    { gp with
      validationLayers := AddValidationLayer gp.validationLayers "VK_LAYER_KHRONOS_validation",
      instanceExts := AddInstanceExt gp.instanceExts ["VK_EXT_debug_report"] }
  else gp

/-- `GPU.Config` from the instance-extension selection onward: each
`IfPanic` site panics on an API failure; the no-device and failed
`CheckGPUOpts` paths return errors; everything else completes. -/
def ConfigRest (g : Globals) (w : VkWorld) (gp : GPURec) : ConfigResult :=
  match w.instanceExtsAvail with
  | Except.error e => ⟨ConfigOutcome.panicked e, gp, g, [], [], []⟩
  | Except.ok actualInstExts =>
    let instExts := (CheckExisting actualInstExts gp.instanceExts).1
    let layersRes : Except String (List String) :=
      if gp.validationLayers.length > 0 then
        w.validationLayersAvail.map fun a => (CheckExisting a gp.validationLayers).1
      else Except.ok []
    match layersRes with
    | Except.error e => ⟨ConfigOutcome.panicked e, gp, g, instExts, [], []⟩
    | Except.ok layers =>
      match w.createInstanceRet with
      | VkResult.errorCode c =>
        ⟨ConfigOutcome.panicked ("vk: CreateInstance error " ++ toString c), gp, g,
          instExts, layers, []⟩
      | VkResult.success =>
        match w.enumerateRet with
        | VkResult.errorCode c =>
          ⟨ConfigOutcome.panicked ("vk: EnumeratePhysicalDevices error " ++ toString c),
            gp, g, instExts, layers, []⟩
        | VkResult.success =>
          if w.devices.length = 0 then
            ⟨ConfigOutcome.errorResult "vgpu: error: no GPU devices found", gp, g,
              instExts, layers, []⟩
          else
            match SelectGPU gp.compute w.env w.devices with
            | SelOutcome.panicked m =>
              ⟨ConfigOutcome.panicked m, gp, g, instExts, layers, []⟩
            | SelOutcome.ok gi nm =>
              let gp2 := { gp with deviceName := nm }
              if ¬ w.checkGPUOpts then
                ⟨ConfigOutcome.errorResult "vgpu: fatal config error found, see messages above",
                  gp2, g, instExts, layers, []⟩
              else
                let gp3 := { gp2 with
                  maxComputeWorkGroupCount1D :=
                    (w.devices.getD gi default).maxComputeWorkGroupCount0 }
                match w.deviceExtsAvail with
                | Except.error e => ⟨ConfigOutcome.panicked e, gp3, g, instExts, layers, []⟩
                | Except.ok actualDevExts =>
                  let devExts := (CheckExisting actualDevExts gp3.deviceExts).1
                  if g.debug then
                    match w.createDebugCallbackRet with
                    | VkResult.errorCode c =>
                      ⟨ConfigOutcome.panicked ("vk: CreateDebugReportCallback error " ++ toString c),
                        gp3, g, instExts, layers, devExts⟩
                    | VkResult.success => ⟨ConfigOutcome.ok, gp3, g, instExts, layers, devExts⟩
                  else ⟨ConfigOutcome.ok, gp3, g, instExts, layers, devExts⟩

/-- `GPU.Config(name, opts...)` from `vgpu.go`, over explicit globals and an
explicit Vulkan world. -/
def Config (g : Globals) (w : VkWorld) (gp0 : GPURec) (name : String)
    (opts : List (Option GPUOpts)) : ConfigResult :=
  let gp1 := { gp0 with appName := name, userOpts := configUserOpts g opts }
  let g' := configGlobals g opts
  ConfigRest g' w (configDebugLayers g'.debug gp1)

/-- The options the instance sees through its `UserOpts` pointer under the
process-wide state `g`: the aliased `DefaultOpts` object is read live. -/
def effectiveUserOpts (gp : GPURec) (g : Globals) : Option GPUOpts :=
  match gp.userOpts with
  | OptsRef.null => none
  | OptsRef.globalDefault => g.defaultOpts
  | OptsRef.callerObj o => o

/-- Result of a dispatch request: recorded device work, or the
`DispatchTooLarge` rejection. -/
inductive DispatchOutcome where
  | work (gx gy gz : Nat)
  | dispatchTooLarge
deriving DecidableEq, Repr

/-- Modelled from the spec: the workgroup-count validation of the compute
dispatch path (`Pipeline.ComputeDispatch` is outside this source snapshot;
the device limit itself is the `MaxComputeWorkGroupCount` captured by
`GPU.Config` into `MaxComputeWorkGroupCount1D`).  A request exceeding the
limit in any dimension fails with `DispatchTooLarge` and issues no work;
counts are never clamped. -/
def ComputeDispatch (limit gx gy gz : Nat) : DispatchOutcome :=
  if limit < gx ∨ limit < gy ∨ limit < gz then DispatchOutcome.dispatchTooLarge
  else DispatchOutcome.work gx gy gz

/-- One buffered `Value`: its host-mapped bytes, its device-side bytes, and
the dirty ("mod") flag. -/
structure SyValue where
  host : List Nat
  dev : List Nat
  dirty : Bool
deriving DecidableEq, Repr

/-- A command recorded into the compute command buffer. -/
inductive SyCmd where
  | dispatchPassThrough
deriving DecidableEq, Repr

/-- Modelled from the spec: the state of the compute-round-trip System of
§8 — an "In" Value, an "Out" Value, and the recorded command buffer (the
`System`/`Memory` implementation is outside this source snapshot). -/
structure ComputeSy where
  inVal : SyValue
  outVal : SyValue
  cmds : List SyCmd
deriving DecidableEq, Repr

/-- Write a byte pattern into the "In" Value's host-mapped view. -/
def writeHostIn (s : ComputeSy) (pattern : List Nat) : ComputeSy :=
  { s with inVal := { s.inVal with host := pattern } }

/-- `Value.SetMod` on the "In" Value: mark its host data dirty. -/
def setModIn (s : ComputeSy) : ComputeSy :=
  { s with inVal := { s.inVal with dirty := true } }

/-- Modelled from the spec: `Mem.SyncToGPU` copies every dirty Value's host
bytes to its device storage and clears the dirty flags. -/
def SyncToGPU (s : ComputeSy) : ComputeSy :=
  { s with
    inVal := if s.inVal.dirty then { s.inVal with dev := s.inVal.host, dirty := false } else s.inVal,
    outVal := if s.outVal.dirty then { s.outVal with dev := s.outVal.host, dirty := false } else s.outVal }

/-- Record the pass-through dispatch into the command buffer. -/
def recordDispatchPassThrough (s : ComputeSy) : ComputeSy :=
  { s with cmds := s.cmds ++ [SyCmd.dispatchPassThrough] }

/-- Execute one recorded command on the device: the pass-through compute
pipeline copies the "In" device bytes to the "Out" device bytes unchanged. -/
def execCmd (s : ComputeSy) : SyCmd → ComputeSy
  | SyCmd.dispatchPassThrough => { s with outVal := { s.outVal with dev := s.inVal.dev } }

/-- Modelled from the spec: `ComputeSubmitWait` submits the recorded command
buffer and blocks until the device has executed it. -/
def ComputeSubmitWait (s : ComputeSy) : ComputeSy :=
  s.cmds.foldl execCmd { s with cmds := [] }

/-- Modelled from the spec: `Mem.SyncValueIndexFromGPU(0, "Out", 0)` copies
the "Out" Value's device bytes back into its host-mapped view. -/
def SyncOutFromGPU (s : ComputeSy) : ComputeSy :=
  { s with outVal := { s.outVal with host := s.outVal.dev } }

/-- A declared Var as the descriptor-table build sees it: its name and its
configured number of buffered Value instances. -/
structure VarDecl where
  name : String
  count : Nat
deriving DecidableEq, Repr

/-- One binding of the built descriptor tables: the binding index, the bound
Var, and the Value instances it references. -/
structure DescBinding where
  binding : Nat
  varName : String
  valueIndices : List Nat
deriving DecidableEq, Repr

/-- The Vars registry: the declarations and the currently built tables. -/
structure VarsState where
  decls : List VarDecl
  tables : List DescBinding
deriving DecidableEq, Repr

/-- Modelled from the spec: the descriptor-table build performed by
`Vars.Config()` (outside this source snapshot): each declared Var is bound
at the binding index given by its declaration position and references its
Values `0..count-1`. -/
def buildDescTables (decls : List VarDecl) : List DescBinding :=
  decls.enum.map fun p => ⟨p.1, p.2.name, List.range p.2.count⟩

/-- Modelled from the spec: `Vars.Config()` rebuilds the descriptor tables
from the current declarations (`vdraw.Drawer.SetMaxTextures` re-invokes it
after changing resource counts). -/
def VarsConfig (vs : VarsState) : VarsState :=
  { vs with tables := buildDescTables vs.decls }

/-- `Set.ConfigValues(n)` as invoked by `Drawer.SetMaxTextures`: fix the
number of buffered Value instances of every Var of the set to `n`. -/
def ConfigValues (vs : VarsState) (n : Nat) : VarsState :=
  { vs with decls := vs.decls.map fun d => { d with count := n } }

/-- A concrete discrete device for concrete runs. -/
def sampleDevice : PhysDevice :=
  ⟨"TestGPU", 7, true, [1024], 65535⟩

/-- A concrete Vulkan world in which every external call succeeds and a
single device is present. -/
def sampleWorld : VkWorld :=
  ⟨Except.ok [], Except.ok [], VkResult.success, VkResult.success,
   [sampleDevice], Except.ok [], true, VkResult.success, fun _ => ""⟩

/-- A freshly initialized `GPU` struct. -/
def emptyGPU : GPURec :=
  ⟨"", OptsRef.null, [], [], [], false, "", 0⟩

/-- A world whose instance-extension enumeration fails. -/
def failingWorld : VkWorld :=
  { sampleWorld with
    instanceExtsAvail := Except.error "vk: EnumerateInstanceExtensionProperties failed" }

/-- A non-discrete device whose name does not contain "1". -/
def cexDevA : PhysDevice :=
  ⟨"CardA", 0, false, [4], 0⟩

/-- A non-discrete device whose name contains "1" as a substring. -/
def cexDevB : PhysDevice :=
  ⟨"Card1", 1, false, [8], 0⟩

/-- An environment in which only `VK_DEVICE_SELECT` is set, to "1". -/
def cexEnv : String → String :=
  fun s => if s = "VK_DEVICE_SELECT" then "1" else ""

/-- Two concrete discrete devices, the second owning the larger heap. -/
def discDevA : PhysDevice :=
  ⟨"A", 0, true, [4], 0⟩

/-- See `discDevA`. -/
def discDevB : PhysDevice :=
  ⟨"B", 1, true, [8], 0⟩

end VGpu

namespace VGpu

theorem findStringAux_nonneg_iff (str : String) (strs : List String) (i : Nat) :
    0 ≤ FindStringAux str strs i ↔ str ∈ strs := by
  induction strs generalizing i with
  | nil =>
    simp [FindStringAux]
  | cons s rest ih =>
    by_cases h : str = s
    · simp [FindStringAux, h, Int.ofNat_nonneg]
    · simp [FindStringAux, h, ih]

theorem findString_nonneg_iff (str : String) (strs : List String) :
    0 ≤ FindString str strs ↔ str ∈ strs :=
  findStringAux_nonneg_iff str strs 0

theorem addIfAbsent_of_mem {exts : List String} {ex : String} (h : ex ∈ exts) :
    addIfAbsent exts ex = exts := by
  unfold addIfAbsent
  rw [if_pos ((findString_nonneg_iff ex exts).mpr h)]

theorem addIfAbsent_of_not_mem {exts : List String} {ex : String} (h : ex ∉ exts) :
    addIfAbsent exts ex = exts ++ [ex] := by
  unfold addIfAbsent
  rw [if_neg]
  intro hge
  exact h ((findString_nonneg_iff ex exts).mp hge)

theorem mem_addIfAbsent_self (exts : List String) (ex : String) :
    ex ∈ addIfAbsent exts ex := by
  by_cases h : ex ∈ exts
  · rw [addIfAbsent_of_mem h]; exact h
  · rw [addIfAbsent_of_not_mem h]; simp

theorem mem_addIfAbsent_of_mem {exts : List String} {a : String} (ex : String)
    (h : a ∈ exts) : a ∈ addIfAbsent exts ex := by
  by_cases hm : ex ∈ exts
  · rw [addIfAbsent_of_mem hm]; exact h
  · rw [addIfAbsent_of_not_mem hm]; exact List.mem_append_left _ h

theorem mem_foldl_addIfAbsent_of_mem {exts : List String} {a : String}
    (ext : List String) (h : a ∈ exts) : a ∈ ext.foldl addIfAbsent exts := by
  induction ext generalizing exts with
  | nil => exact h
  | cons e rest ih => exact ih (mem_addIfAbsent_of_mem e h)

theorem mem_foldl_addIfAbsent {a : String} :
    ∀ (ext exts : List String), a ∈ ext → a ∈ ext.foldl addIfAbsent exts := by
  intro ext
  induction ext with
  | nil => intro exts h; cases h
  | cons e rest ih =>
    intro exts h
    simp only [List.foldl_cons]
    rcases List.mem_cons.mp h with he | hr
    · subst he
      exact mem_foldl_addIfAbsent_of_mem rest (mem_addIfAbsent_self exts a)
    · exact ih (addIfAbsent exts e) hr

theorem foldl_addIfAbsent_of_all_mem {exts ext : List String}
    (h : ∀ e ∈ ext, e ∈ exts) : ext.foldl addIfAbsent exts = exts := by
  induction ext with
  | nil => rfl
  | cons e rest ih =>
    have he : e ∈ exts := h e (List.mem_cons_self e rest)
    simp only [List.foldl_cons, addIfAbsent_of_mem he]
    exact ih fun x hx => h x (List.mem_cons_of_mem e hx)

theorem addInstanceExt_idem (exts ext : List String) :
    AddInstanceExt (AddInstanceExt exts ext) ext = AddInstanceExt exts ext := by
  unfold AddInstanceExt
  exact foldl_addIfAbsent_of_all_mem fun e he => mem_foldl_addIfAbsent ext exts he

theorem addIfAbsent_nodup {exts : List String} (h : exts.Nodup) (ex : String) :
    (addIfAbsent exts ex).Nodup := by
  by_cases hm : ex ∈ exts
  · rw [addIfAbsent_of_mem hm]; exact h
  · rw [addIfAbsent_of_not_mem hm]
    simpa using List.Nodup.append h (List.nodup_singleton ex)
      (by simpa using fun hx => hm hx)

theorem foldl_addIfAbsent_nodup {exts : List String} (ext : List String)
    (h : exts.Nodup) : (ext.foldl addIfAbsent exts).Nodup := by
  induction ext generalizing exts with
  | nil => exact h
  | cons e rest ih => exact ih (addIfAbsent_nodup h e)

theorem configRest_globals (g : Globals) (w : VkWorld) (gp : GPURec) :
    (ConfigRest g w gp).globals = g := by
  unfold ConfigRest
  simp only []
  repeat' split
  all_goals rfl

theorem configRest_userOpts (g : Globals) (w : VkWorld) (gp : GPURec) :
    (ConfigRest g w gp).gp.userOpts = gp.userOpts := by
  unfold ConfigRest
  simp only []
  repeat' split
  all_goals rfl

theorem configDebugLayers_userOpts (b : Bool) (gp : GPURec) :
    (configDebugLayers b gp).userOpts = gp.userOpts := by
  unfold configDebugLayers
  split <;> rfl

theorem configDebugLayers_compute (b : Bool) (gp : GPURec) :
    (configDebugLayers b gp).compute = gp.compute := by
  unfold configDebugLayers
  split <;> rfl

theorem config_globals (g : Globals) (w : VkWorld) (gp0 : GPURec) (name : String)
    (opts : List (Option GPUOpts)) :
    (Config g w gp0 name opts).globals = configGlobals g opts := by
  unfold Config
  exact configRest_globals _ _ _

theorem config_userOpts (g : Globals) (w : VkWorld) (gp0 : GPURec) (name : String)
    (opts : List (Option GPUOpts)) :
    (Config g w gp0 name opts).gp.userOpts = configUserOpts g opts := by
  unfold Config
  rw [configRest_userOpts, configDebugLayers_userOpts]

theorem findDiscreteLoop_eq_get (gpus : List PhysDevice) :
    ∀ idx cur gi, cur ≤ idx →
      findDiscreteLoop gpus idx cur gi = (discEntriesFrom gpus gi).get? (idx - cur) := by
  induction gpus with
  | nil => intro idx cur gi _; rfl
  | cons d rest ih =>
    intro idx cur gi hle
    cases hd : d.discrete with
    | true =>
      by_cases hc : cur = idx
      · subst hc
        simp [findDiscreteLoop, discEntriesFrom, hd]
      · have hlt : cur < idx := lt_of_le_of_ne hle hc
        have hstep : idx - cur = (idx - (cur + 1)) + 1 := by omega
        have h1 : findDiscreteLoop (d :: rest) idx cur gi
            = findDiscreteLoop rest idx (cur + 1) (gi + 1) := by
          simp [findDiscreteLoop, hd, hc]
        have h2 : discEntriesFrom (d :: rest) gi
            = (gi, d) :: discEntriesFrom rest (gi + 1) := by
          simp [discEntriesFrom, hd]
        rw [h1, h2, hstep, List.get?_cons_succ]
        exact ih idx (cur + 1) (gi + 1) hlt
    | false =>
      have h1 : findDiscreteLoop (d :: rest) idx cur gi
          = findDiscreteLoop rest idx cur (gi + 1) := by
        simp [findDiscreteLoop, hd]
      have h2 : discEntriesFrom (d :: rest) gi = discEntriesFrom rest (gi + 1) := by
        simp [discEntriesFrom, hd]
      rw [h1, h2]
      exact ih idx cur (gi + 1) hle

theorem findNameLoop_eq_find (t : String) (gpus : List PhysDevice) :
    ∀ gi, findNameLoop t gpus gi =
      (entriesFrom gpus gi).find? fun p => containsSub t.toList p.2.name.toList := by
  induction gpus with
  | nil => intro gi; rfl
  | cons d rest ih =>
    intro gi
    have hstep : findNameLoop t (d :: rest) gi
        = if containsSub t.toList d.name.toList then some (gi, d)
          else findNameLoop t rest (gi + 1) := rfl
    rw [show entriesFrom (d :: rest) gi = (gi, d) :: entriesFrom rest (gi + 1) from rfl]
    cases hm : containsSub t.toList d.name.toList with
    | true =>
      have hm' : (fun q : Nat × PhysDevice => containsSub t.toList q.2.name.toList) (gi, d)
          = true := hm
      rw [hstep, hm, if_pos rfl]
      exact (List.find?_cons_of_pos
        (p := fun q : Nat × PhysDevice => containsSub t.toList q.2.name.toList)
        (entriesFrom rest (gi + 1)) hm').symm
    | false =>
      have hm' : ¬ ((fun q : Nat × PhysDevice => containsSub t.toList q.2.name.toList) (gi, d)
          = true) := by
        intro hcon
        have hred : containsSub t.toList d.name.toList = true := hcon
        rw [hm] at hred
        exact Bool.false_ne_true hred
      rw [hstep, hm, if_neg Bool.false_ne_true,
        List.find?_cons_of_neg
          (p := fun q : Nat × PhysDevice => containsSub t.toList q.2.name.toList)
          (entriesFrom rest (gi + 1)) hm']
      exact ih (gi + 1)

theorem heapFold_eq (dn : String) (gi : Nat) (hs : List Nat) :
    ∀ acc : BestAcc, heapFold dn gi hs acc =
      if acc.maxSz < hs.foldr max 0 then ⟨dn, hs.foldr max 0, gi⟩ else acc := by
  induction hs with
  | nil =>
    intro acc
    simp [heapFold]
  | cons sz rest ih =>
    intro acc
    have hstep : heapFold dn gi (sz :: rest) acc =
        if acc.maxSz < sz then heapFold dn gi rest ⟨dn, sz, gi⟩
        else heapFold dn gi rest acc := rfl
    rw [hstep]
    by_cases h1 : acc.maxSz < sz
    · rw [if_pos h1, ih]
      by_cases h2 : sz < rest.foldr max 0
      · rw [if_pos (show BestAcc.maxSz ⟨dn, sz, gi⟩ < rest.foldr max 0 from h2)]
        rw [List.foldr_cons,
          if_pos (show acc.maxSz < max sz (rest.foldr max 0) by omega)]
        have : max sz (rest.foldr max 0) = rest.foldr max 0 := by omega
        rw [this]
      · rw [if_neg (show ¬ BestAcc.maxSz ⟨dn, sz, gi⟩ < rest.foldr max 0 from h2)]
        rw [List.foldr_cons,
          if_pos (show acc.maxSz < max sz (rest.foldr max 0) by omega)]
        have : max sz (rest.foldr max 0) = sz := by omega
        rw [this]
    · rw [if_neg h1, ih, List.foldr_cons]
      by_cases h2 : acc.maxSz < rest.foldr max 0
      · rw [if_pos h2, if_pos (show acc.maxSz < max sz (rest.foldr max 0) by omega)]
        have : max sz (rest.foldr max 0) = rest.foldr max 0 := by omega
        rw [this]
      · rw [if_neg h2, if_neg (show ¬ acc.maxSz < max sz (rest.foldr max 0) by omega)]

theorem heapFold_device (d : PhysDevice) (gi : Nat) (dn : String) (acc : BestAcc) :
    heapFold dn gi d.heaps acc =
      if acc.maxSz < deviceBestHeap d then ⟨dn, deviceBestHeap d, gi⟩ else acc :=
  heapFold_eq dn gi d.heaps acc

theorem selectDefaultLoop_stable (gpus : List PhysDevice) :
    ∀ gi (acc : BestAcc), discreteMaxFrom gpus ≤ acc.maxSz →
      selectDefaultLoop gpus gi acc = acc := by
  induction gpus with
  | nil => intro gi acc _; rfl
  | cons d rest ih =>
    intro gi acc hle
    cases hd : d.discrete with
    | true =>
      have hM : discreteMaxFrom (d :: rest)
          = max (deviceBestHeap d) (discreteMaxFrom rest) := by
        simp [discreteMaxFrom, hd]
      rw [hM] at hle
      have hstep : selectDefaultLoop (d :: rest) gi acc
          = selectDefaultLoop rest (gi + 1) (heapFold (GetDeviceName d gi) gi d.heaps acc) := by
        simp [selectDefaultLoop, hd]
      rw [hstep, heapFold_device,
        if_neg (show ¬ acc.maxSz < deviceBestHeap d by omega)]
      exact ih (gi + 1) acc (by omega)
    | false =>
      have hM : discreteMaxFrom (d :: rest) = discreteMaxFrom rest := by
        simp [discreteMaxFrom, hd]
      rw [hM] at hle
      have hstep : selectDefaultLoop (d :: rest) gi acc
          = selectDefaultLoop rest (gi + 1) acc := by
        simp [selectDefaultLoop, hd]
      rw [hstep]
      exact ih (gi + 1) acc hle

theorem selectDefaultLoop_max (gpus : List PhysDevice) :
    ∀ gi (acc : BestAcc), acc.maxSz < discreteMaxFrom gpus →
      ∃ g d, firstMaxFrom gpus gi (discreteMaxFrom gpus) = some (g, d) ∧
        selectDefaultLoop gpus gi acc =
          ⟨GetDeviceName d g, discreteMaxFrom gpus, g⟩ := by
  induction gpus with
  | nil =>
    intro gi acc h
    simp [discreteMaxFrom] at h
  | cons d rest ih =>
    intro gi acc hlt
    cases hd : d.discrete with
    | true =>
      have hM : discreteMaxFrom (d :: rest)
          = max (deviceBestHeap d) (discreteMaxFrom rest) := by
        simp [discreteMaxFrom, hd]
      have hstep : selectDefaultLoop (d :: rest) gi acc
          = selectDefaultLoop rest (gi + 1) (heapFold (GetDeviceName d gi) gi d.heaps acc) := by
        simp [selectDefaultLoop, hd]
      rw [hstep, heapFold_device]
      by_cases h1 : acc.maxSz < deviceBestHeap d
      · rw [if_pos h1]
        by_cases h2 : deviceBestHeap d < discreteMaxFrom rest
        · -- the maximum lies strictly in the rest of the list
          have hMr : discreteMaxFrom (d :: rest) = discreteMaxFrom rest := by
            rw [hM]; omega
          obtain ⟨g, d', hfirst, hres⟩ :=
            ih (gi + 1) ⟨GetDeviceName d gi, deviceBestHeap d, gi⟩ h2
          refine ⟨g, d', ?_, ?_⟩
          · rw [hMr]
            have hfm : firstMaxFrom (d :: rest) gi (discreteMaxFrom rest)
                = firstMaxFrom rest (gi + 1) (discreteMaxFrom rest) := by
              have hne : ¬ (d.discrete = true ∧ deviceBestHeap d = discreteMaxFrom rest) := by
                rintro ⟨_, he⟩; omega
              simp only [firstMaxFrom]
              rw [if_neg hne]
            rw [hfm, hfirst]
          · rw [hMr]
            exact hres
        · -- this device attains the maximum
          have hMd : discreteMaxFrom (d :: rest) = deviceBestHeap d := by
            rw [hM]; omega
          refine ⟨gi, d, ?_, ?_⟩
          · rw [hMd]
            simp [firstMaxFrom, hd]
          · rw [selectDefaultLoop_stable rest (gi + 1)
              ⟨GetDeviceName d gi, deviceBestHeap d, gi⟩ (Nat.le_of_not_lt h2), hMd]
      · rw [if_neg h1]
        have h2 : acc.maxSz < discreteMaxFrom rest := by rw [hM] at hlt; omega
        have hMr : discreteMaxFrom (d :: rest) = discreteMaxFrom rest := by
          rw [hM]; omega
        obtain ⟨g, d', hfirst, hres⟩ := ih (gi + 1) acc h2
        refine ⟨g, d', ?_, ?_⟩
        · rw [hMr]
          have hfm : firstMaxFrom (d :: rest) gi (discreteMaxFrom rest)
              = firstMaxFrom rest (gi + 1) (discreteMaxFrom rest) := by
            have hne : ¬ (d.discrete = true ∧ deviceBestHeap d = discreteMaxFrom rest) := by
              rintro ⟨_, he⟩; omega
            simp only [firstMaxFrom]
            rw [if_neg hne]
          rw [hfm, hfirst]
        · rw [hMr]
          exact hres
    | false =>
      have hM : discreteMaxFrom (d :: rest) = discreteMaxFrom rest := by
        simp [discreteMaxFrom, hd]
      have hstep : selectDefaultLoop (d :: rest) gi acc
          = selectDefaultLoop rest (gi + 1) acc := by
        simp [selectDefaultLoop, hd]
      rw [hstep]
      obtain ⟨g, d', hfirst, hres⟩ := ih (gi + 1) acc (by rw [hM] at hlt; exact hlt)
      refine ⟨g, d', ?_, ?_⟩
      · rw [hM]
        have hfm : firstMaxFrom (d :: rest) gi (discreteMaxFrom rest)
            = firstMaxFrom rest (gi + 1) (discreteMaxFrom rest) := by
          have hne : ¬ (d.discrete = true ∧ deviceBestHeap d = discreteMaxFrom rest) := by
            rintro ⟨hdd, _⟩
            rw [hd] at hdd
            exact Bool.false_ne_true hdd
          simp only [firstMaxFrom]
          rw [if_neg hne]
        rw [hfm, hfirst]
      · rw [hM]
        exact hres

theorem addValidationLayer_eq_addIfAbsent (layers : List String) (ex : String) :
    AddValidationLayer layers ex = addIfAbsent layers ex := rfl

/-- C10: if exactly one physical device is enumerated, `SelectGPU` returns
index 0 and sets `DeviceName` from that device; the environment override is
never consulted, so any two environments give the same result. -/
theorem selectGPU_single_device (compute : Bool) (env₁ env₂ : String → String)
    (d : PhysDevice) :
    SelectGPU compute env₁ [d] = SelOutcome.ok 0 (GetDeviceName d 0) ∧
    SelectGPU compute env₁ [d] = SelectGPU compute env₂ [d] :=
  ⟨rfl, rfl⟩

/-- C9: `AddInstanceExt`, `AddDeviceExt` and `AddValidationLayer` leave the
list unchanged when the name is already present, are idempotent, and never
introduce duplicate entries. -/
theorem add_methods_idempotent :
    (∀ (exts : List String) (ex : String), ex ∈ exts → AddInstanceExt exts [ex] = exts) ∧
    (∀ (exts : List String) (ex : String), ex ∈ exts → AddDeviceExt exts [ex] = exts) ∧
    (∀ (layers : List String) (ex : String), ex ∈ layers → AddValidationLayer layers ex = layers) ∧
    (∀ (exts ext : List String),
      AddInstanceExt (AddInstanceExt exts ext) ext = AddInstanceExt exts ext) ∧
    (∀ (exts ext : List String),
      AddDeviceExt (AddDeviceExt exts ext) ext = AddDeviceExt exts ext) ∧
    (∀ (layers : List String) (ex : String),
      AddValidationLayer (AddValidationLayer layers ex) ex = AddValidationLayer layers ex) ∧
    (∀ (exts ext : List String), exts.Nodup → (AddInstanceExt exts ext).Nodup) ∧
    (∀ (exts ext : List String), exts.Nodup → (AddDeviceExt exts ext).Nodup) ∧
    (∀ (layers : List String) (ex : String), layers.Nodup →
      (AddValidationLayer layers ex).Nodup) := by
  refine ⟨?_, ?_, ?_, ?_, ?_, ?_, ?_, ?_, ?_⟩
  · intro exts ex h
    show addIfAbsent exts ex = exts
    exact addIfAbsent_of_mem h
  · intro exts ex h
    show addIfAbsent exts ex = exts
    exact addIfAbsent_of_mem h
  · intro layers ex h
    rw [addValidationLayer_eq_addIfAbsent]
    exact addIfAbsent_of_mem h
  · intro exts ext
    exact addInstanceExt_idem exts ext
  · intro exts ext
    exact addInstanceExt_idem exts ext
  · intro layers ex
    rw [addValidationLayer_eq_addIfAbsent]
    exact addIfAbsent_of_mem (mem_addIfAbsent_self layers ex)
  · intro exts ext h
    exact foldl_addIfAbsent_nodup ext h
  · intro exts ext h
    exact foldl_addIfAbsent_nodup ext h
  · intro layers ex h
    rw [addValidationLayer_eq_addIfAbsent]
    exact addIfAbsent_nodup h ex

/-- Witness for C9 at concrete inputs. -/
theorem add_methods_idempotent_witness :
    AddInstanceExt ["VK_KHR_swapchain"] ["VK_KHR_swapchain"] = ["VK_KHR_swapchain"] ∧
    AddValidationLayer ["VK_LAYER_KHRONOS_validation"] "VK_LAYER_KHRONOS_validation"
      = ["VK_LAYER_KHRONOS_validation"] ∧
    (AddInstanceExt ["a"] ["b", "b"]).Nodup :=
  ⟨add_methods_idempotent.1 ["VK_KHR_swapchain"] "VK_KHR_swapchain" (by decide),
   add_methods_idempotent.2.2.1 ["VK_LAYER_KHRONOS_validation"] "VK_LAYER_KHRONOS_validation"
     (by decide),
   add_methods_idempotent.2.2.2.2.2.2.1 ["a"] ["b", "b"] (by decide)⟩

/-- C7 (code bug): the compute1 example calls `math32.IntMultiple`, which
rounds to the NEAREST multiple of 64 instead of padding up (that would be
`math32.IntMultipleGE`): at the requested count 20 the stored element count
becomes `IntMultiple(20, 64) = 0` and the dispatched group count `0 / 64 =
0`, not the padded 64 and `ceil(20/64) = 1` of the claim and of the spec's
scenario — a degenerate no-op run with zero-size buffers; in general the
computation yields `round(n/64) = (n + 32) / 64` groups, not `ceil(n/64) =
(n + 63) / 64`. -/
theorem intMultiple_round_not_pad :
    IntMultiple 20 64 = 0 ∧
    IntMultiple 20 64 / 64 = 0 ∧
    IntMultiple 20 64 ≠ 64 ∧
    IntMultiple 20 64 / 64 ≠ 1 ∧
    (∀ n : Nat, IntMultiple n 64 / 64 = (n + 32) / 64) := by
  refine ⟨by decide, by decide, by decide, by decide, ?_⟩
  intro n
  unfold IntMultiple
  rw [Nat.mul_div_cancel _ (by omega)]
  omega

/-- C5 (spec-modelled): `Config()` is an idempotent rebuild — run twice with
no declaration changes it produces identical descriptor tables, and it is
safe and effective to re-invoke after a `ConfigValues` resource-count
change. -/
theorem varsConfig_idempotent_rebuild (vs : VarsState) :
    VarsConfig (VarsConfig vs) = VarsConfig vs ∧
    (∀ n, VarsConfig (ConfigValues (VarsConfig vs) n) = VarsConfig (ConfigValues vs n)) ∧
    (∀ n, (VarsConfig (ConfigValues vs n)).tables
        = buildDescTables (vs.decls.map fun d => { d with count := n })) := by
  refine ⟨?_, ?_, ?_⟩
  · simp [VarsConfig]
  · intro n
    simp [VarsConfig, ConfigValues]
  · intro n
    simp [VarsConfig, ConfigValues]

theorem foldl_execCmd_inVal :
    ∀ (cmds : List SyCmd) (s : ComputeSy), (cmds.foldl execCmd s).inVal = s.inVal := by
  intro cmds
  induction cmds with
  | nil => intro s; rfl
  | cons c rest ih =>
    intro s
    cases c
    rw [List.foldl_cons]
    rw [ih]
    rfl

/-- C4 (spec-modelled): writing any pattern into the "In" Value's host view,
then `SyncToDevice`, recording and submitting (with wait) a pass-through
dispatch, and `SyncFromDevice` on the "Out" Value, reproduces the pattern
bit-for-bit in the "Out" Value's host view. -/
theorem compute_roundtrip_identity (s : ComputeSy) (pattern : List Nat) :
    (SyncOutFromGPU (ComputeSubmitWait (recordDispatchPassThrough
      (SyncToGPU (setModIn (writeHostIn s pattern)))))).outVal.host = pattern := by
  simp only [writeHostIn, setModIn, SyncToGPU, recordDispatchPassThrough,
    ComputeSubmitWait, SyncOutFromGPU, if_true]
  rw [List.foldl_append, List.foldl_cons, List.foldl_nil]
  have hin := foldl_execCmd_inVal s.cmds
  simp only [execCmd]
  rw [hin]

/-- C3 (spec-modelled): a dispatch whose group count exceeds the
device-advertised limit in any dimension fails with `DispatchTooLarge`,
issues no device work, and is never clamped; a within-limit dispatch issues
exactly the requested counts. -/
theorem computeDispatch_too_large (limit gx gy gz : Nat)
    (h : limit < gx ∨ limit < gy ∨ limit < gz) :
    ComputeDispatch limit gx gy gz = DispatchOutcome.dispatchTooLarge ∧
    (∀ a b c, ComputeDispatch limit gx gy gz ≠ DispatchOutcome.work a b c) ∧
    (∀ l : Nat, ¬ (l < gx ∨ l < gy ∨ l < gz) →
      ComputeDispatch l gx gy gz = DispatchOutcome.work gx gy gz) := by
  have he : ComputeDispatch limit gx gy gz = DispatchOutcome.dispatchTooLarge := by
    unfold ComputeDispatch
    rw [if_pos h]
  refine ⟨he, ?_, ?_⟩
  · intro a b c hcon
    rw [he] at hcon
    cases hcon
  · intro l hok
    unfold ComputeDispatch
    rw [if_neg hok]

/-- Witness for C3 at a concrete over-limit request. -/
theorem computeDispatch_too_large_witness :
    (64 < 65 ∨ 64 < 1 ∨ 64 < 1) ∧
    ComputeDispatch 64 65 1 1 = DispatchOutcome.dispatchTooLarge :=
  ⟨by decide, (computeDispatch_too_large 64 65 1 1 (by decide)).1⟩

/-- Counterexample to C1: with a non-nil `DefaultOpts` at `Config` time, the
configured instance's `UserOpts` aliases the shared object, so two runs that
differ only in a post-`Config` mutation of the `DefaultOpts` object observe
different effective options through the same instance. -/
theorem config_capture_cex :
    effectiveUserOpts (Config ⟨false, some ⟨[]⟩⟩ sampleWorld emptyGPU "app" []).gp
        (Config ⟨false, some ⟨[]⟩⟩ sampleWorld emptyGPU "app" []).globals
      ≠ effectiveUserOpts (Config ⟨false, some ⟨[]⟩⟩ sampleWorld emptyGPU "app" []).gp
        ⟨false, some ⟨[("TrilinearFiltering", true)]⟩⟩ := by
  decide

/-- C1 amended: when `DefaultOpts` is nil at `Config` time, the instance's
effective options (and hence everything derived from them) are captured at
configuration time: they are the same under any two later states of the
process-wide globals `Debug`/`DefaultOpts`. -/
theorem config_capture_of_nil_defaultOpts
    (g : Globals) (w : VkWorld) (gp0 : GPURec) (nm : String)
    (opts : List (Option GPUOpts)) (hnone : g.defaultOpts = none)
    (g1 g2 : Globals) :
    effectiveUserOpts (Config g w gp0 nm opts).gp g1
      = effectiveUserOpts (Config g w gp0 nm opts).gp g2 := by
  have hu := config_userOpts g w gp0 nm opts
  unfold effectiveUserOpts
  rw [hu]
  obtain ⟨db, dfo⟩ := g
  have hd : dfo = none := hnone
  subst hd
  cases opts with
  | nil => rfl
  | cons o os => rfl

/-- Witness for the amended C1 at concrete post-`Config` global states. -/
theorem config_capture_of_nil_defaultOpts_witness :
    (Globals.mk false none).defaultOpts = none ∧
    effectiveUserOpts (Config ⟨false, none⟩ sampleWorld emptyGPU "app" []).gp
        ⟨true, some ⟨[("TrilinearFiltering", true)]⟩⟩
      = effectiveUserOpts (Config ⟨false, none⟩ sampleWorld emptyGPU "app" []).gp
        ⟨false, none⟩ :=
  ⟨rfl, config_capture_of_nil_defaultOpts ⟨false, none⟩ sampleWorld emptyGPU "app" [] rfl
    ⟨true, some ⟨[("TrilinearFiltering", true)]⟩⟩ ⟨false, none⟩⟩

/-- C8: with a non-nil `DefaultOpts` and an explicit options argument,
`Config` writes the merged options through the `UserOpts` alias into the
shared `DefaultOpts` object (so later-configured GPUs observe the merge);
with a nil `DefaultOpts` it leaves the process-wide state untouched. -/
theorem config_defaultOpts_write_through
    (g : Globals) (w : VkWorld) (gp0 : GPURec) (nm : String)
    (o : Option GPUOpts) (os : List (Option GPUOpts)) :
    (∀ d : GPUOpts, g.defaultOpts = some d →
      (Config g w gp0 nm (o :: os)).globals.defaultOpts = some (d.CopyFrom o) ∧
      (Config g w gp0 nm (o :: os)).gp.userOpts = OptsRef.globalDefault) ∧
    (g.defaultOpts = none → ∀ opts, (Config g w gp0 nm opts).globals = g) := by
  obtain ⟨db, dfo⟩ := g
  constructor
  · intro d hd
    have hd' : dfo = some d := hd
    subst hd'
    constructor
    · rw [config_globals]
      rfl
    · rw [config_userOpts]
      rfl
  · intro hnone opts
    have hd' : dfo = none := hnone
    subst hd'
    rw [config_globals]
    cases opts with
    | nil => rfl
    | cons o' os' => rfl

/-- Witness for C8 at a concrete non-nil `DefaultOpts`. -/
theorem config_defaultOpts_write_through_witness :
    (Globals.mk false (some ⟨[]⟩)).defaultOpts = some ⟨[]⟩ ∧
    (Config ⟨false, some ⟨[]⟩⟩ sampleWorld emptyGPU "app"
        [some ⟨[("TrilinearFiltering", true)]⟩]).globals.defaultOpts
      = some (GPUOpts.CopyFrom ⟨[]⟩ (some ⟨[("TrilinearFiltering", true)]⟩)) ∧
    (Config ⟨false, some ⟨[]⟩⟩ sampleWorld emptyGPU "app"
        [some ⟨[("TrilinearFiltering", true)]⟩]).gp.userOpts
      = OptsRef.globalDefault := by
  have h := (config_defaultOpts_write_through ⟨false, some ⟨[]⟩⟩ sampleWorld emptyGPU "app"
      (some ⟨[("TrilinearFiltering", true)]⟩) []).1 ⟨[]⟩ rfl
  exact ⟨rfl, h.1, h.2⟩

/-- Counterexample to C2: a failing Vulkan call during `Config` (here the
instance-extension enumeration) makes `Config` panic instead of returning an
error to the caller. -/
theorem config_panics_cex :
    (Config ⟨false, none⟩ failingWorld emptyGPU "app" []).outcome
      = ConfigOutcome.panicked "vk: EnumerateInstanceExtensionProperties failed" ∧
    (Config ⟨false, none⟩ failingWorld emptyGPU "app" []).outcome ≠ ConfigOutcome.ok := by
  decide

theorem configRest_outcome (g : Globals) (w : VkWorld) (gp : GPURec)
    (hie : ∀ e, w.instanceExtsAvail ≠ Except.error e)
    (hvl : ∀ e, w.validationLayersAvail ≠ Except.error e)
    (hci : w.createInstanceRet = VkResult.success)
    (hen : w.enumerateRet = VkResult.success)
    (hde : ∀ e, w.deviceExtsAvail ≠ Except.error e)
    (hdb : w.createDebugCallbackRet = VkResult.success)
    (hsel : ∀ m, SelectGPU gp.compute w.env w.devices ≠ SelOutcome.panicked m) :
    (w.devices = [] → (ConfigRest g w gp).outcome
        = ConfigOutcome.errorResult "vgpu: error: no GPU devices found") ∧
    (w.devices ≠ [] → w.checkGPUOpts = false → (ConfigRest g w gp).outcome
        = ConfigOutcome.errorResult "vgpu: fatal config error found, see messages above") ∧
    (w.devices ≠ [] → w.checkGPUOpts = true →
      (ConfigRest g w gp).outcome = ConfigOutcome.ok) := by
  cases hie' : w.instanceExtsAvail with
  | error e => exact absurd hie' (hie e)
  | ok a =>
  cases hvl' : w.validationLayersAvail with
  | error e => exact absurd hvl' (hvl e)
  | ok b =>
  cases hde' : w.deviceExtsAvail with
  | error e => exact absurd hde' (hde e)
  | ok c =>
  refine ⟨?_, ?_, ?_⟩
  · intro hdev
    have hlen0 : w.devices.length = 0 := by rw [hdev]; rfl
    unfold ConfigRest
    rw [hie']
    dsimp only
    rw [hvl']
    by_cases hl : gp.validationLayers.length > 0
    · rw [if_pos hl]
      dsimp only [Except.map]
      rw [hci, hen]
      dsimp only
      rw [if_pos hlen0]
    · rw [if_neg hl]
      dsimp only
      rw [hci, hen]
      dsimp only
      rw [if_pos hlen0]
  · intro hdev hchk
    have hlen0 : ¬ w.devices.length = 0 := fun h => hdev (List.length_eq_zero.mp h)
    unfold ConfigRest
    rw [hie']
    dsimp only
    rw [hvl']
    have hrest : ∀ ie ly, (match SelectGPU gp.compute w.env w.devices with
        | SelOutcome.panicked m =>
          (⟨ConfigOutcome.panicked m, gp, g, ie, ly, []⟩ : ConfigResult)
        | SelOutcome.ok gi nm =>
          if ¬ w.checkGPUOpts then
            ⟨ConfigOutcome.errorResult "vgpu: fatal config error found, see messages above",
              { gp with deviceName := nm }, g, ie, ly, []⟩
          else
            (match w.deviceExtsAvail with
            | Except.error e =>
              ⟨ConfigOutcome.panicked e,
                { gp with deviceName := nm, maxComputeWorkGroupCount1D :=
                    (w.devices.getD gi default).maxComputeWorkGroupCount0 }, g, ie, ly, []⟩
            | Except.ok actualDevExts =>
              if g.debug then
                match w.createDebugCallbackRet with
                | VkResult.errorCode cd =>
                  ⟨ConfigOutcome.panicked ("vk: CreateDebugReportCallback error " ++ toString cd),
                    { gp with deviceName := nm, maxComputeWorkGroupCount1D :=
                        (w.devices.getD gi default).maxComputeWorkGroupCount0 }, g, ie, ly,
                    (CheckExisting actualDevExts gp.deviceExts).1⟩
                | VkResult.success =>
                  ⟨ConfigOutcome.ok,
                    { gp with deviceName := nm, maxComputeWorkGroupCount1D :=
                        (w.devices.getD gi default).maxComputeWorkGroupCount0 }, g, ie, ly,
                    (CheckExisting actualDevExts gp.deviceExts).1⟩
              else
                ⟨ConfigOutcome.ok,
                  { gp with deviceName := nm, maxComputeWorkGroupCount1D :=
                      (w.devices.getD gi default).maxComputeWorkGroupCount0 }, g, ie, ly,
                  (CheckExisting actualDevExts gp.deviceExts).1⟩)).outcome
        = ConfigOutcome.errorResult "vgpu: fatal config error found, see messages above" := by
      intro ie ly
      cases hsel' : SelectGPU gp.compute w.env w.devices with
      | panicked m => exact absurd hsel' (hsel m)
      | ok gi nm =>
        dsimp only
        rw [if_pos (by rw [hchk]; exact Bool.false_ne_true)]
    by_cases hl : gp.validationLayers.length > 0
    · rw [if_pos hl]
      dsimp only [Except.map]
      rw [hci, hen]
      dsimp only
      rw [if_neg hlen0]
      exact hrest _ _
    · rw [if_neg hl]
      dsimp only
      rw [hci, hen]
      dsimp only
      rw [if_neg hlen0]
      exact hrest _ _
  · intro hdev hchk
    have hlen0 : ¬ w.devices.length = 0 := fun h => hdev (List.length_eq_zero.mp h)
    unfold ConfigRest
    rw [hie']
    dsimp only
    rw [hvl']
    have hrest : ∀ ie ly, (match SelectGPU gp.compute w.env w.devices with
        | SelOutcome.panicked m =>
          (⟨ConfigOutcome.panicked m, gp, g, ie, ly, []⟩ : ConfigResult)
        | SelOutcome.ok gi nm =>
          if ¬ w.checkGPUOpts then
            ⟨ConfigOutcome.errorResult "vgpu: fatal config error found, see messages above",
              { gp with deviceName := nm }, g, ie, ly, []⟩
          else
            (match w.deviceExtsAvail with
            | Except.error e =>
              ⟨ConfigOutcome.panicked e,
                { gp with deviceName := nm, maxComputeWorkGroupCount1D :=
                    (w.devices.getD gi default).maxComputeWorkGroupCount0 }, g, ie, ly, []⟩
            | Except.ok actualDevExts =>
              if g.debug then
                match w.createDebugCallbackRet with
                | VkResult.errorCode cd =>
                  ⟨ConfigOutcome.panicked ("vk: CreateDebugReportCallback error " ++ toString cd),
                    { gp with deviceName := nm, maxComputeWorkGroupCount1D :=
                        (w.devices.getD gi default).maxComputeWorkGroupCount0 }, g, ie, ly,
                    (CheckExisting actualDevExts gp.deviceExts).1⟩
                | VkResult.success =>
                  ⟨ConfigOutcome.ok,
                    { gp with deviceName := nm, maxComputeWorkGroupCount1D :=
                        (w.devices.getD gi default).maxComputeWorkGroupCount0 }, g, ie, ly,
                    (CheckExisting actualDevExts gp.deviceExts).1⟩
              else
                ⟨ConfigOutcome.ok,
                  { gp with deviceName := nm, maxComputeWorkGroupCount1D :=
                      (w.devices.getD gi default).maxComputeWorkGroupCount0 }, g, ie, ly,
                  (CheckExisting actualDevExts gp.deviceExts).1⟩)).outcome
        = ConfigOutcome.ok := by
      intro ie ly
      cases hsel' : SelectGPU gp.compute w.env w.devices with
      | panicked m => exact absurd hsel' (hsel m)
      | ok gi nm =>
        dsimp only
        rw [if_neg (by rw [hchk]; exact fun hcon => hcon rfl)]
        rw [hde']
        dsimp only
        cases hgd : g.debug with
        | false => rw [if_neg Bool.false_ne_true]
        | true =>
          rw [if_pos rfl, hdb]
    by_cases hl : gp.validationLayers.length > 0
    · rw [if_pos hl]
      dsimp only [Except.map]
      rw [hci, hen]
      dsimp only
      rw [if_neg hlen0]
      exact hrest _ _
    · rw [if_neg hl]
      dsimp only
      rw [hci, hen]
      dsimp only
      rw [if_neg hlen0]
      exact hrest _ _

/-- C2 amended: when the underlying Vulkan calls succeed and the device
selection does not hit the index-not-found panic, `Config` returns an error
exactly on the no-device and failed-option-check paths and `nil` on success;
however, API-call failures and the `SelectGPU` index-not-found case panic
rather than returning an error (see the counterexample). -/
theorem config_error_discipline
    (g : Globals) (w : VkWorld) (gp0 : GPURec) (nm : String)
    (opts : List (Option GPUOpts))
    (hie : ∀ e, w.instanceExtsAvail ≠ Except.error e)
    (hvl : ∀ e, w.validationLayersAvail ≠ Except.error e)
    (hci : w.createInstanceRet = VkResult.success)
    (hen : w.enumerateRet = VkResult.success)
    (hde : ∀ e, w.deviceExtsAvail ≠ Except.error e)
    (hdb : w.createDebugCallbackRet = VkResult.success)
    (hsel : ∀ m, SelectGPU gp0.compute w.env w.devices ≠ SelOutcome.panicked m) :
    (w.devices = [] → (Config g w gp0 nm opts).outcome
        = ConfigOutcome.errorResult "vgpu: error: no GPU devices found") ∧
    (w.devices ≠ [] → w.checkGPUOpts = false → (Config g w gp0 nm opts).outcome
        = ConfigOutcome.errorResult "vgpu: fatal config error found, see messages above") ∧
    (w.devices ≠ [] → w.checkGPUOpts = true →
      (Config g w gp0 nm opts).outcome = ConfigOutcome.ok) := by
  unfold Config
  dsimp only
  refine configRest_outcome _ w _ hie hvl hci hen hde hdb ?_
  rw [configDebugLayers_compute]
  exact hsel

/-- Witness for the amended C2: a fully successful world yields a `nil`
error from `Config`. -/
theorem config_error_discipline_witness :
    sampleWorld.devices ≠ [] ∧ sampleWorld.checkGPUOpts = true ∧
    (Config ⟨false, none⟩ sampleWorld emptyGPU "app" []).outcome = ConfigOutcome.ok := by
  refine ⟨by decide, by decide, ?_⟩
  refine (config_error_discipline ⟨false, none⟩ sampleWorld emptyGPU "app" []
    (fun e h => by simp [sampleWorld] at h)
    (fun e h => by simp [sampleWorld] at h)
    (by decide) (by decide)
    (fun e h => by simp [sampleWorld] at h)
    (by decide) ?_).2.2 (by decide) (by decide)
  intro m hcon
  rw [show SelectGPU emptyGPU.compute sampleWorld.env sampleWorld.devices
      = SelOutcome.ok 0 (GetDeviceName sampleDevice 0) from by decide] at hcon
  exact SelOutcome.noConfusion hcon

/-- Counterexample to C6: the override "1" parses as an integer in
`[0, gpuCount)`, so `SelectGPU` never tries substring matching even though a
device name contains "1" — with no discrete device at that count it panics
instead of returning the matching device's index. -/
theorem selectGPU_override_cex :
    containsSub "1".toList cexDevB.name.toList = true ∧
    SelectGPU false cexEnv [cexDevA, cexDevB] = SelOutcome.panicked
      "vgpu: device specified by index in *_DEVICE_SELECT environment variable, index: 1, NOT FOUND" ∧
    SelectGPU false cexEnv [cexDevA, cexDevB] ≠ SelOutcome.ok 1 (GetDeviceName cexDevB 1) := by
  decide

/-- C6 amended: with several devices, the override is read with the stated
precedence (`VK_COMPUTE_DEVICE_SELECT` over `MESA_VK_DEVICE_SELECT` over
`VK_DEVICE_SELECT`); an override parsing as an integer in `[0, gpuCount)` is
counted over discrete devices and yields that device's index, or panics when
there are fewer discrete devices; substring matching is attempted only when
the override does not parse as an in-range integer, yielding the first
device whose name contains the override; with no override the discrete
device owning the largest memory heap is selected. -/
theorem selectGPU_override_rules
    (compute : Bool) (env : String → String) (gpus : List PhysDevice)
    (hlen : 2 ≤ gpus.length) :
    (compute = true → env "VK_COMPUTE_DEVICE_SELECT" ≠ "" →
      pickTarget compute env = env "VK_COMPUTE_DEVICE_SELECT") ∧
    ((compute = false ∨ env "VK_COMPUTE_DEVICE_SELECT" = "") →
      env "MESA_VK_DEVICE_SELECT" ≠ "" →
      pickTarget compute env = env "MESA_VK_DEVICE_SELECT") ∧
    ((compute = false ∨ env "VK_COMPUTE_DEVICE_SELECT" = "") →
      env "MESA_VK_DEVICE_SELECT" = "" → env "VK_DEVICE_SELECT" ≠ "" →
      pickTarget compute env = env "VK_DEVICE_SELECT") ∧
    (∀ idx : Int, Atoi (pickTarget compute env) = some idx →
      0 ≤ idx → idx < (gpus.length : Int) →
      ∀ gi d, (discEntriesFrom gpus 0).get? idx.toNat = some (gi, d) →
        SelectGPU compute env gpus = SelOutcome.ok gi (GetDeviceName d gi)) ∧
    (∀ idx : Int, Atoi (pickTarget compute env) = some idx →
      0 ≤ idx → idx < (gpus.length : Int) →
      (discEntriesFrom gpus 0).get? idx.toNat = none →
        SelectGPU compute env gpus = SelOutcome.panicked
          ("vgpu: device specified by index in *_DEVICE_SELECT environment variable, index: "
            ++ toString idx ++ ", NOT FOUND")) ∧
    (pickTarget compute env ≠ "" →
      (∀ idx : Int, Atoi (pickTarget compute env) = some idx →
        idx < 0 ∨ (gpus.length : Int) ≤ idx) →
      ∀ gi d, (entriesFrom gpus 0).find?
          (fun p => containsSub (pickTarget compute env).toList p.2.name.toList) = some (gi, d) →
        SelectGPU compute env gpus = SelOutcome.ok gi (GetDeviceName d gi)) ∧
    (pickTarget compute env = "" → 0 < discreteMaxFrom gpus →
      ∀ gi d, firstMaxFrom gpus 0 (discreteMaxFrom gpus) = some (gi, d) →
        SelectGPU compute env gpus = SelOutcome.ok gi (GetDeviceName d gi)) := by
  have hsm : SelectGPU compute env gpus = SelectGPUMulti compute env gpus := by
    unfold SelectGPU
    rw [if_neg (by omega)]
  refine ⟨?_, ?_, ?_, ?_, ?_, ?_, ?_⟩
  · intro hc hne
    subst hc
    simp [pickTarget, hne]
  · intro hcc hne
    unfold pickTarget
    rw [if_neg (by
      rcases hcc with hc | hc
      · subst hc; rintro ⟨hcon, _⟩; exact Bool.false_ne_true hcon
      · rintro ⟨_, hcon⟩; exact hcon hc)]
    simp [hne]
  · intro hcc hme hve
    unfold pickTarget
    rw [if_neg (by
      rcases hcc with hc | hc
      · subst hc; rintro ⟨hcon, _⟩; exact Bool.false_ne_true hcon
      · rintro ⟨_, hcon⟩; exact hcon hc)]
    simp [hme, hve]
  · intro idx hAtoi h0 hlt gi d hget
    have ht : pickTarget compute env ≠ "" := by
      intro hcon
      rw [hcon] at hAtoi
      exact Option.noConfusion hAtoi
    rw [hsm]
    unfold SelectGPUMulti
    dsimp only
    rw [if_neg ht, hAtoi]
    dsimp only
    rw [if_pos ⟨h0, hlt⟩]
    rw [findDiscreteLoop_eq_get gpus idx.toNat 0 0 (Nat.zero_le _), Nat.sub_zero, hget]
  · intro idx hAtoi h0 hlt hget
    have ht : pickTarget compute env ≠ "" := by
      intro hcon
      rw [hcon] at hAtoi
      exact Option.noConfusion hAtoi
    rw [hsm]
    unfold SelectGPUMulti
    dsimp only
    rw [if_neg ht, hAtoi]
    dsimp only
    rw [if_pos ⟨h0, hlt⟩]
    rw [findDiscreteLoop_eq_get gpus idx.toNat 0 0 (Nat.zero_le _), Nat.sub_zero, hget]
  · intro ht hout gi d hfind
    rw [hsm]
    unfold SelectGPUMulti
    dsimp only
    rw [if_neg ht]
    have hname : (findNameLoop (pickTarget compute env) gpus 0).map
        (fun p => SelOutcome.ok p.1 (GetDeviceName p.2 p.1))
        = some (SelOutcome.ok gi (GetDeviceName d gi)) := by
      rw [findNameLoop_eq_find, hfind]
      rfl
    cases hA : Atoi (pickTarget compute env) with
    | none =>
      dsimp only
      rw [hname]
    | some idx =>
      dsimp only
      rw [if_neg (by
        rcases hout idx hA with h | h
        · rintro ⟨hcon, _⟩; omega
        · rintro ⟨_, hcon⟩; omega)]
      rw [hname]
  · intro ht hpos gi d hfirst
    rw [hsm]
    unfold SelectGPUMulti
    dsimp only
    rw [if_pos ht]
    dsimp only
    obtain ⟨g', d', hf', hres⟩ := selectDefaultLoop_max gpus 0 ⟨"", 0, 0⟩ hpos
    rw [hfirst] at hf'
    injection hf' with hp
    have hg : gi = g' := congrArg Prod.fst hp
    have hd : d = d' := congrArg Prod.snd hp
    subst hg
    subst hd
    rw [hres]

/-- Witness for the amended C6: with no override set and two discrete
devices, the one owning the larger heap is selected. -/
theorem selectGPU_override_rules_witness :
    pickTarget false (fun _ => "") = "" ∧
    0 < discreteMaxFrom [discDevA, discDevB] ∧
    SelectGPU false (fun _ => "") [discDevA, discDevB]
      = SelOutcome.ok 1 (GetDeviceName discDevB 1) := by
  refine ⟨rfl, by decide, ?_⟩
  exact (selectGPU_override_rules false (fun _ => "") [discDevA, discDevB]
    (by decide)).2.2.2.2.2.2 rfl (by decide) 1 discDevB (by decide)

end VGpu
